import Mathlib

/-!
Shallow embedding of the riboseqorg/Metadata data-wrangling scripts
(`prepare_metadata.py`, `CSV_Diff.py`, `generate_fixtures.py`, `value_counts.py`).

Dataframe cells are modelled as `Option Val` (with `none` for pandas NaN),
rows as association lists from column names to cells, and tables as lists of
rows.  Each cleaning pass of `prepare_metadata.py` is translated to a per-row
function; the vectorized pandas masks are elementwise, so applying them row by
row is the same transform.
-/

namespace Metadata

/-- Character strings held in dataframe cells, modelled as lists of characters. -/
abbrev Str := List Char

/-- A scalar value in a dataframe cell: a string, an integer, or a boolean. -/
inductive Val where
  | vStr (s : Str)
  | vInt (n : Int)
  | vBool (b : Bool)
deriving DecidableEq

open Val

/-- A dataframe cell. `none` models a pandas missing value (NaN). -/
abbrev Cell := Option Val

/-- A dataframe row: an association list from column names to cells. -/
abbrev Row := List (String × Cell)

/-- A dataframe: a list of rows sharing the same column names. -/
abbrev Table := List Row

/-- Read the cell of column `c` in row `r`; absent columns read as NaN. -/
def getCell (r : Row) (c : String) : Cell :=
  match r.find? (fun p => p.1 == c) with
  | some p => p.2
  | none => none

/-- Write cell `v` to column `c` of row `r`, creating the column at the end of
the row when it is not present (pandas `.loc` assignment semantics). -/
def setCell (r : Row) (c : String) (v : Cell) : Row :=
  if r.any (fun p => p.1 == c) then
    r.map (fun p => if p.1 == c then (c, v) else p)
  else
    r ++ [(c, v)]

/-- Python `str.lower` on a list of characters. -/
def strLower (s : Str) : Str := s.map Char.toLower

/-- pandas `Series.str.lower()` on one cell: NaN and non-strings become NaN. -/
def cellLower (c : Cell) : Cell :=
  match c with
  | some (vStr s) => some (vStr (strLower s))
  | _ => none

/-- Substring occurrence test on character lists. -/
def hasSubstr (pat : Str) : Str → Bool
  | [] => pat.isEmpty
  | c :: cs => pat.isPrefixOf (c :: cs) || hasSubstr pat cs

/-- `safe_string_operation(series, "contains", pat, case=False)` on one cell with
`na=False`: case-insensitive substring containment, `false` on NaN and non-strings. -/
def strContainsCI (c : Cell) (pat : String) : Bool :=
  match c with
  | some (vStr s) => hasSubstr (strLower pat.toList) (strLower s)
  | _ => false

/-- `safe_string_operation(series, "startswith", pat)` on one cell with `na=False`. -/
def strStartswith (c : Cell) (pat : String) : Bool :=
  match c with
  | some (vStr s) => pat.toList.isPrefixOf s
  | _ => false

/-- `safe_string_operation(series, "endswith", pat)` on one cell with `na=False`. -/
def strEndswith (c : Cell) (pat : String) : Bool :=
  match c with
  | some (vStr s) => pat.toList.isSuffixOf s
  | _ => false

/-- pandas `Series.isin` against a list of string literals; NaN is in no list. -/
def cellIsin (c : Cell) (l : List String) : Bool :=
  match c with
  | some (vStr s) => l.any (fun x => x.toList == s)
  | _ => false

/-- pandas `Series.eq(x)` against a string scalar: NaN compares unequal. -/
def cellEq (c : Cell) (x : String) : Bool :=
  c == some (vStr x.toList)

/-- pandas `Series.isin([x.lower() for x in l])`: membership in the lowered list. -/
def cellIsinLower (c : Cell) (l : List String) : Bool :=
  match c with
  | some (vStr s) => l.any (fun x => strLower x.toList == s)
  | _ => false

/-! ## prepare_metadata.py: clean_cell_lines -/

/-- The block-list of non-cell-line values in `clean_cell_lines`. -/
def non_cell_lines : List String :=
  ["C57BL/6", "Col-0",
   "cell line", "whole cells", "all cells", "Suspension cell line",
   "wild type", "Mutant", "Wt", "yeast", "yeast cells",
   "yeast cell", "bacterial cell", "bacteria", "fungal cells",
   "archaeal cell", "archaea", "somatic cells", "whole organism",
   "blastocyst", "morula", "ICM"]

/-- Step 1 of `clean_cell_lines`: a value whose lowercase form is in the lowered
block-list becomes NaN. -/
def cellLineBlockStep (c : Cell) : Cell :=
  if cellIsinLower (cellLower c) non_cell_lines then none else c

/-- Step 2 of `clean_cell_lines`: standardize common cell types.  All five masks
are computed from the same input value and the assignments are applied in the
listed order, so a later matching rule overrides an earlier one. -/
def cellTypeStep (c : Cell) : Cell :=
  let m1 := strContainsCI c "lymphoblastoid"
  let m2 := strContainsCI c "fibroblast"
  let m3 := strContainsCI c "neuroblast"
  let m4 := strContainsCI c "myoblast"
  let m5 := strContainsCI c "mouse lymphoid Ba/F3 cells"
  let c1 := if m1 then some (vStr "lymphoblastoid".toList) else c
  let c2 := if m2 then some (vStr "Fibroblast".toList) else c1
  let c3 := if m3 then some (vStr "Neuroblast".toList) else c2
  let c4 := if m4 then some (vStr "Myoblast".toList) else c3
  if m5 then some (vStr "Ba/F3".toList) else c4

/-- Step 3 of `clean_cell_lines`: misidentified cell lines are forced to NaN.
All seven conditions read the post-step-2 value together with the row's
ScientificName and TISSUE cells; each matching condition assigns NaN. -/
def misidentifiedStep (c sci tis : Cell) : Cell :=
  let c1 := cellEq c "S2" && !(cellEq sci "Drosophila melanogaster")
  let c2 := cellEq c "TSC2"
  let c3 := cellEq c "H1" && cellEq sci "Escherichia coli"
  let c4 := cellEq c "PC3" && cellEq sci "Neurospora crassa"
  let c5 := cellEq c "H1" && cellEq tis "embryo" && !(cellEq sci "Homo sapiens")
  let c6 := strEndswith c "-cell" && cellEq tis "embryo"
  let c7 := strEndswith c "derived tumor" && cellEq tis "Glioblastoma"
  if c1 || c2 || c3 || c4 || c5 || c6 || c7 then none else c

/-- The value-level transform `clean_cell_lines` applies to one row's CELL_LINE,
given the row's ScientificName and TISSUE cells. -/
def cellLineTransform (c sci tis : Cell) : Cell :=
  misidentifiedStep (cellTypeStep (cellLineBlockStep c)) sci tis

/-- `clean_cell_lines` on one row. -/
def clean_cell_lines_row (r : Row) : Row :=
  setCell r "CELL_LINE"
    (cellLineTransform (getCell r "CELL_LINE") (getCell r "ScientificName")
      (getCell r "TISSUE"))

/-- `clean_cell_lines`. -/
def clean_cell_lines (df : Table) : Table := df.map clean_cell_lines_row

/-! ## prepare_metadata.py: clean_inhibitors -/

/-- The allow-list of accepted inhibitors in `clean_inhibitors`. -/
def accepted_inhibitors : List String :=
  ["untreated", "chx", "harr", "lactim", "chx_harr", "chx_lactim",
   "frozen", "tetracycline", "thapsigargin", "anisomycin", "tunicamycin"]

/-- Standardize 'untreated' entries: values in the synonym list become "untreated". -/
def inhUntreatedStep (c : Cell) : Cell :=
  if cellIsin c ["no treatment", "none", "no erythromycin"] then
    some (vStr "untreated".toList)
  else c

/-- Standardize special cases: values ending in "thapsigargin" collapse to it. -/
def inhThapsigarginStep (c : Cell) : Cell :=
  if strEndswith c "thapsigargin" then some (vStr "thapsigargin".toList) else c

/-- Set non-standard inhibitors to NaN: values neither in the accepted list nor
ending in "in" are cleared. -/
def inhValidStep (c : Cell) : Cell :=
  if !(cellIsin c accepted_inhibitors || strEndswith c "in") then none else c

/-- Remove time-based entries: values ending in "min" are cleared. -/
def inhTimeStep (c : Cell) : Cell :=
  if strEndswith c "min" then none else c

/-- The steps of `clean_inhibitors` after the initial lowercasing. -/
def inhibitorSteps (c : Cell) : Cell :=
  inhTimeStep (inhValidStep (inhThapsigarginStep (inhUntreatedStep c)))

/-- The value-level transform `clean_inhibitors` applies to one INHIBITOR cell:
lowercase, collapse untreated synonyms, collapse thapsigargin suffixes, clear
values outside the allow-list (unless they end in "in"), clear time-based
values ending in "min". -/
def inhibitorTransform (c : Cell) : Cell :=
  inhibitorSteps (cellLower c)

/-- `clean_inhibitors` on one row. -/
def clean_inhibitors_row (r : Row) : Row :=
  setCell r "INHIBITOR" (inhibitorTransform (getCell r "INHIBITOR"))

/-- `clean_inhibitors`. -/
def clean_inhibitors (df : Table) : Table := df.map clean_inhibitors_row

/-! ## prepare_metadata.py: clean_library_types -/

/-- The value-level transform of `clean_library_types`: all masks are computed
from the input value (the mapping dict is built before any assignment), then
the assignments run in the listed order. -/
def libraryTypeTransform (c : Cell) : Cell :=
  let rfp1 := strStartswith c "Ribosome"
  let rfp2 := strContainsCI c "ibosome"
  let ssu1 := strStartswith c "40S"
  let ssu2 := strStartswith c "small ribosomal subunit"
  let lsu1 := strStartswith c "80S"
  let lsu2 := strStartswith c "large ribosomal subunit"
  let rt := strStartswith c "Ribotag"
  let v1 := if rfp1 then some (vStr "RFP".toList) else c
  let v2 := if rfp2 then some (vStr "RFP".toList) else v1
  let v3 := if ssu1 then some (vStr "SSU".toList) else v2
  let v4 := if ssu2 then some (vStr "SSU".toList) else v3
  let v5 := if lsu1 then some (vStr "LSU".toList) else v4
  let v6 := if lsu2 then some (vStr "LSU".toList) else v5
  if rt then some (vStr "RiboTag".toList) else v6

/-- `clean_library_types` on one row. -/
def clean_library_types_row (r : Row) : Row :=
  setCell r "LIBRARYTYPE" (libraryTypeTransform (getCell r "LIBRARYTYPE"))

/-- `clean_library_types`. -/
def clean_library_types (df : Table) : Table := df.map clean_library_types_row

/-! ## prepare_metadata.py: clean_scientific_names -/

/-- The organism prefix list of `clean_scientific_names`. -/
def organism_list : List String :=
  ["Salmonella enterica", "Escherichia coli", "Saccharomyces cerevisiae",
   "Zymomonas mobilis", "Oryza sativa", "Streptomyces avermitilis",
   "Mycobacterium tuberculosis", "Streptomyces tsukubensis",
   "Staphylococcus aureus", "Trypanosoma cruzi", "Lacticaseibacillus rhamnosus",
   "Bacillus subtilis", "Caulobacter vibrioides", "Pseudomonas aeruginosa",
   "Mycobacteroides abscessus", "Schizosaccharomyces pombe",
   "Mycoplasmoides gallisepticum", "Plasmodium falciparum",
   "Streptomyces coelicolor", "Flavobacterium johnsoniae",
   "Mycoplasma pneumoniae", "Cryptococcus neoformans",
   "Mycolicibacterium smegmatis", "Sinorhizobium meliloti",
   "Bacteroides thetaiotaomicron", "Vibrio natriegens", "Vibrio vulnificus"]

/-- One step of the organism-standardizing fold: a value starting with the
organism name is replaced by that name. -/
def organismStep (c : Cell) (org : String) : Cell :=
  if strStartswith c org then some (vStr org.toList) else c

/-- The value-level transform of `clean_scientific_names`: standardize each
organism in order, then the SARS-CoV2 special case. -/
def scientificNameTransform (c : Cell) : Cell :=
  let c1 := organism_list.foldl organismStep c
  if strStartswith c1 "Severe acute respiratory syndrome coronavirus 2" then
    some (vStr "SARS-CoV2".toList)
  else c1

/-- `clean_scientific_names` on one row. -/
def clean_scientific_names_row (r : Row) : Row :=
  setCell r "ScientificName" (scientificNameTransform (getCell r "ScientificName"))

/-- `clean_scientific_names`. -/
def clean_scientific_names (df : Table) : Table := df.map clean_scientific_names_row

/-! ## prepare_metadata.py: drop_unwanted_columns -/

/-- The static unwanted-column list of `drop_unwanted_columns`. -/
def unwanted_columns : List String :=
  ["Run.1", "BioProject.1", "name", "not_unique", "translation inhibitor",
   "mouse line", "type", "disease state", "diagnosis", "cell status",
   "isolates", "lncrna probes", "sequencing type", "knockdown or knockout",
   "input", "fragmentation", "lentivirus", "animal group", "cell stage",
   "biol replicate", "tech replicate", "tretment", "progenitor cell type",
   "geographic location (country and/or sea)",
   "specimen with known storage state", "rnasei treatment", "model",
   "identity", "cdna type", "primer set",
   "lentivirally transduced transgenes", "genotype/variaion"]

/-- Keep a column: not in the unwanted list and not containing "Experimental". -/
def keptColumn (c : String) : Bool :=
  !(unwanted_columns.contains c || hasSubstr "Experimental".toList c.toList)

/-- `drop_unwanted_columns` on one row. -/
def drop_unwanted_columns_row (r : Row) : Row :=
  r.filter (fun p => keptColumn p.1)

/-- `drop_unwanted_columns`. -/
def drop_unwanted_columns (df : Table) : Table := df.map drop_unwanted_columns_row

/-! ## prepare_metadata.py: update_standardized_columns -/

/-- The (main, standardized) column pairs of `update_standardized_columns`. -/
def column_pairs : List (String × String) :=
  [("TISSUE", "TISSUE_st"), ("CELL_LINE", "CELL_LINE_st"),
   ("INHIBITOR", "INHIBITOR_st"), ("CONDITION", "CONDITION_st"),
   ("REPLICATE", "REPLICATE_st"), ("LIBRARYTYPE", "LIBRARYTYPE_st"),
   ("FRACTION", "FRACTION_st"), ("TIMEPOINT", "TIMEPOINT_st"),
   ("ScientificName", "scientific_name")]

/-- One consolidation step: copy a non-missing standardized value onto the main
column (rows where the standardized cell is NaN are untouched). -/
def updatePairStep (r : Row) (pair : String × String) : Row :=
  match getCell r pair.2 with
  | some v => setCell r pair.1 (some v)
  | none => r

/-- `update_standardized_columns` on one row: run all consolidation steps in
order, then drop the standardized source columns. -/
def update_standardized_columns_row (r : Row) : Row :=
  (column_pairs.foldl updatePairStep r).filter
    (fun p => !(column_pairs.map Prod.snd).contains p.1)

/-- `update_standardized_columns`. -/
def update_standardized_columns (df : Table) : Table :=
  df.map update_standardized_columns_row

/-! ## prepare_metadata.py: fix_makar_entries -/

/-- `Study_Pubmed_id` values equal to 1 become NaN. -/
def pubmedFix (c : Cell) : Cell := if c == some (vInt 1) then none else c

/-- AUTHOR values equal to "Makar" become NaN. -/
def authorFix (c : Cell) : Cell := if c == some (vStr "Makar".toList) then none else c

/-- `fix_makar_entries` on one row. -/
def fix_makar_entries_row (r : Row) : Row :=
  let r1 := setCell r "Study_Pubmed_id" (pubmedFix (getCell r "Study_Pubmed_id"))
  setCell r1 "AUTHOR" (authorFix (getCell r1 "AUTHOR"))

/-- `fix_makar_entries`. -/
def fix_makar_entries (df : Table) : Table := df.map fix_makar_entries_row

/-- The field-cleaning pipeline run by `main` in prepare_metadata.py (without
the optional RiboCrypt merge): standardized-column consolidation, cell-line
cleaning, inhibitor cleaning, library-type cleaning, scientific-name cleaning,
column pruning and the Makar fix, in program order. -/
def cleaningPipeline (df : Table) : Table :=
  fix_makar_entries (drop_unwanted_columns (clean_scientific_names
    (clean_library_types (clean_inhibitors (clean_cell_lines
      (update_standardized_columns df))))))

/-! ## prepare_metadata.py: update_from_ribocrypt -/

/-- Python scalar `!=` between two cells: NaN is unequal to everything,
including another NaN. -/
def pdNe (a b : Cell) : Bool :=
  match a, b with
  | some x, some y => decide (x ≠ y)
  | _, _ => true

/-- `new_value not in ["NONE", "nan"]` is false exactly on these two string
values; NaN is in no list. -/
def isSentinel (c : Cell) : Bool :=
  c == some (vStr "NONE".toList) || c == some (vStr "nan".toList)

/-- The direct-copy update rule of `update_from_ribocrypt` for CELL_LINE,
INHIBITOR and AUTHOR: the reference value replaces the target value only when
it is not a sentinel, the two differ under Python `!=`, and a present target
value is never replaced by NaN. -/
def update_direct (orig new : Cell) : Cell :=
  if !isSentinel new && pdNe orig new && !(orig.isSome && new.isNone) then new
  else orig

/-- The derived CONDITION replacement of `update_from_ribocrypt`:
"Control" if the reference value is "WT", else "Test". -/
def derivedCondition (y : Cell) : Cell :=
  some (vStr (if y == some (vStr "WT".toList) then "Control".toList else "Test".toList))

/-- The CONDITION update rule of `update_from_ribocrypt`: guarded by
`row["CONDITION_y"] != "NONE"` (Python `!=`, so a NaN reference passes the
guard), assigning the derived value when it differs from the existing one. -/
def update_condition (orig y : Cell) : Cell :=
  if pdNe y (some (vStr "NONE".toList)) then
    if pdNe orig (derivedCondition y) && !(orig.isSome && (derivedCondition y).isNone) then
      derivedCondition y
    else orig
  else orig

/-- `update_from_ribocrypt` on one key-matched row pair
(target row `r`, reference row `ref`). -/
def update_from_ribocrypt_row (r ref : Row) : Row :=
  let r1 := setCell r "CELL_LINE"
    (update_direct (getCell r "CELL_LINE") (getCell ref "CELL_LINE"))
  let r2 := setCell r1 "INHIBITOR"
    (update_direct (getCell r1 "INHIBITOR") (getCell ref "INHIBITOR"))
  let r3 := setCell r2 "AUTHOR"
    (update_direct (getCell r2 "AUTHOR") (getCell ref "AUTHOR"))
  setCell r3 "CONDITION"
    (update_condition (getCell r3 "CONDITION") (getCell ref "CONDITION"))

/-! ## CSV_Diff.py: find_mismatched_values and find_identical_rows -/

/-- Matched-NaN equality used by `find_identical_rows`:
`(a == b) | (a.isna() & b.isna())`. -/
def matchedEq (a b : Cell) : Bool :=
  match a, b with
  | some x, some y => decide (x = y)
  | none, none => true
  | _, _ => false

/-- Inner merge of two (Run, value) column extracts on the Run key: one output
per key-matched pair, in left-table order. -/
def mergeOnRun (t1 t2 : List (Str × Cell)) : List (Str × Cell × Cell) :=
  t1.flatMap (fun a => (t2.filter (fun b => b.1 == a.1)).map (fun b => (a.1, a.2, b.2)))

/-- The mismatch predicate of `find_mismatched_values`:
`(v1 != v2) & ~(v1.isna() & v2.isna())`. -/
def mismatchB (a b : Cell) : Bool :=
  pdNe a b && !(a.isNone && b.isNone)

/-- `find_mismatched_values` for one column: the key-matched row pairs whose
two values mismatch. -/
def find_mismatched_values (t1 t2 : List (Str × Cell)) : List (Str × Cell × Cell) :=
  (mergeOnRun t1 t2).filter (fun x => mismatchB x.2.1 x.2.2)

/-- Row-level matched-NaN equality across the shared non-key columns. -/
def rowIdenticalB (xs ys : List Cell) : Bool :=
  (xs.zip ys).all (fun p => matchedEq p.1 p.2)

/-- Inner merge of full rows on the Run key. -/
def mergeRowsOnRun (t1 t2 : List (Str × List Cell)) :
    List (Str × List Cell × List Cell) :=
  t1.flatMap (fun a => (t2.filter (fun b => b.1 == a.1)).map (fun b => (a.1, a.2, b.2)))

/-- The result of `find_identical_rows`. -/
structure RowComparison where
  identicalRuns : List Str
  differentRuns : List Str
  totalRows : Nat
deriving DecidableEq

/-- `find_identical_rows`: classify every key-matched row pair as identical or
different across the shared columns. -/
def find_identical_rows (t1 t2 : List (Str × List Cell)) : RowComparison :=
  let merged := mergeRowsOnRun t1 t2
  { identicalRuns := (merged.filter (fun x => rowIdenticalB x.2.1 x.2.2)).map (fun x => x.1)
    differentRuns := (merged.filter (fun x => !rowIdenticalB x.2.1 x.2.2)).map (fun x => x.1)
    totalRows := t1.length }

/-! ## generate_fixtures.py: df_to_sample_fixture -/

/-- The integer-coerced fields of `df_to_sample_fixture`. -/
def int_cast_columns : List String := ["spots", "bases", "avgLength", "size_MB"]

/-- Decimal digit-string value. -/
def digitsVal (ds : Str) : Option Nat :=
  if ds ≠ [] ∧ ds.all Char.isDigit then
    some (ds.foldl (fun acc d => acc * 10 + (d.toNat - 48)) 0)
  else none

/-- Python `int()` applied to a string: optional surrounding whitespace,
optional sign, decimal digits; anything else raises (here: `none`). -/
def pyIntOfStr (s : Str) : Option Int :=
  let t := ((s.dropWhile Char.isWhitespace).reverse.dropWhile Char.isWhitespace).reverse
  match t with
  | '-' :: ds => (digitsVal ds).map (fun n => -(n : Int))
  | '+' :: ds => (digitsVal ds).map (fun n => (n : Int))
  | ds => (digitsVal ds).map (fun n => (n : Int))

/-- Python `int()` applied to a cell: integers pass through, strings are
parsed, NaN and booleans fail. -/
def pyInt (c : Cell) : Option Int :=
  match c with
  | some (vInt n) => some n
  | some (vStr s) => pyIntOfStr s
  | _ => none

/-- An emitted fixture field value: an integer or a formatted string. -/
inductive FieldVal where
  | fInt (n : Int)
  | fStr (s : Str)
deriving DecidableEq

/-- Python `str.replace`, leftmost non-overlapping, with structural fuel. -/
def pyReplaceAux (pat rep : Str) : Nat → Str → Str
  | _, [] => []
  | 0, s => s
  | fuel + 1, c :: cs =>
    if pat ≠ [] ∧ pat.isPrefixOf (c :: cs) then
      rep ++ pyReplaceAux pat rep fuel ((c :: cs).drop pat.length)
    else c :: pyReplaceAux pat rep fuel cs

/-- Python `str.replace`. -/
def pyReplace (s pat rep : Str) : Str := pyReplaceAux pat rep s.length s

/-- The string printed for a cell in the non-integer branch of
`df_to_sample_fixture`: strings get the quote/newline replacements, NaN prints
as "nan". -/
def fixtureEntry (c : Cell) : Str :=
  match c with
  | some (vStr s) =>
    pyReplace (pyReplace (pyReplace s "\"\"\"\"".toList "'".toList)
      "\n".toList " ".toList) "\"".toList "'".toList
  | some (vInt n) => (toString n).toList
  | some (vBool b) => (if b then "True" else "False").toList
  | none => "nan".toList

/-- One emitted field of `df_to_sample_fixture` for column `col` of row `r`:
columns outside the accepted set are skipped; integer columns that fail
`int()` coercion are skipped silently. -/
def emitField (accepted : List String) (r : Row) (col : String) :
    Option (String × FieldVal) :=
  if !accepted.contains col then none
  else if int_cast_columns.contains col then
    match pyInt (getCell r col) with
    | some n => some (col, FieldVal.fInt n)
    | none => none
  else some (col, FieldVal.fStr (fixtureEntry (getCell r col)))

/-- The `"fields"` mapping emitted for one row. -/
def sampleFields (cols accepted : List String) (r : Row) : List (String × FieldVal) :=
  cols.filterMap (emitField accepted r)

/-- The Python truthiness update of `last_pk` at each row:
`if not last_pk: last_pk = 1 else: last_pk += 1`. -/
def nextPk (lastPk : Option Int) : Int :=
  match lastPk with
  | none => 1
  | some p => if p = 0 then 1 else p + 1

/-- `df_to_sample_fixture`: one record per row, threading the primary key. -/
def df_to_sample_fixture (cols accepted : List String) (lastPk : Option Int) :
    Table → List (Int × List (String × FieldVal))
  | [] => []
  | r :: rest =>
    let pk := nextPk lastPk
    (pk, sampleFields cols accepted r) :: df_to_sample_fixture cols accepted (some pk) rest

/-! ## generate_fixtures.py: add_ribocrypt_booleans -/

/-- The membership test `row["Run"] in runs` for a Run cell. -/
def runIn (c : Cell) (runs : List Str) : Bool :=
  match c with
  | some (vStr s) => runs.contains s
  | _ => false

/-- The completion outcome recorded for a Run that appears in the reference
table: "Completed" when the Run is among the rows with `complete == True`,
else "Failed" when among the rows with `complete == False`, else the initial
"Not Yet Started" (a Run with no recorded outcome keeps the initial status). -/
def ribocryptStatus (rc : List (Str × Option Bool)) (run : Cell) : String :=
  if runIn run ((rc.filter (fun p => p.2 == some true)).map Prod.fst) then "Completed"
  else if runIn run ((rc.filter (fun p => p.2 == some false)).map Prod.fst) then "Failed"
  else "Not Yet Started"

/-- `add_ribocrypt_booleans` on one row, given the reference table as
(Run, complete) pairs where complete is a nullable boolean. -/
def add_ribocrypt_booleans_row (rc : List (Str × Option Bool)) (r : Row) : Row :=
  let inAll := runIn (getCell r "Run") (rc.map Prod.fst)
  setCell (setCell r "ribocrypt_id" (some (vBool inAll))) "process_status"
    (some (vStr (if inAll then ribocryptStatus rc (getCell r "Run")
      else "Not Yet Started").toList))

/-- `add_ribocrypt_booleans`. -/
def add_ribocrypt_booleans (df : Table) (rc : List (Str × Option Bool)) : Table :=
  df.map (add_ribocrypt_booleans_row rc)

/-! ## value_counts.py: analyze_column_counts -/

/-- pandas `Series.value_counts()`: drop NaN, count each distinct value, rank
by descending count. -/
def value_counts (cells : List Cell) : List (Val × Nat) :=
  let present := cells.filterMap id
  let counts := present.dedup.map (fun v => (v, present.count v))
  counts.mergeSort (fun a b => decide (b.2 ≤ a.2))

/-- Extract one column of a table. -/
def columnCells (df : Table) (c : String) : List Cell :=
  df.map (fun r => getCell r c)

/-- `analyze_column_counts` for one column: the complete ranked listing written
to the per-column output file. -/
def analyze_column_counts (df : Table) (c : String) : List (Val × Nat) :=
  value_counts (columnCells df c)

/-! ## Basic lemmas about characters, strings and cells -/

theorem Char.toLower_toLower (c : Char) : c.toLower.toLower = c.toLower := by
  unfold Char.toLower
  by_cases h : c.toNat ≥ 65 ∧ c.toNat ≤ 90
  · rw [if_pos h]
    have hv : (c.toNat + 32).isValidChar := Or.inl (by omega)
    have ht : (Char.ofNat (c.toNat + 32)).toNat = c.toNat + 32 := by
      rw [Char.ofNat, dif_pos hv]
      rfl
    rw [ht, if_neg (by omega)]
  · rw [if_neg h, if_neg h]

theorem strLower_strLower (s : Str) : strLower (strLower s) = strLower s := by
  simp only [strLower, List.map_map]
  exact List.map_congr_left fun c _ => Char.toLower_toLower c

theorem cellLower_cellLower (c : Cell) : cellLower (cellLower c) = cellLower c := by
  cases c with
  | none => rfl
  | some v =>
    cases v with
    | vStr s => simp [cellLower, strLower_strLower]
    | vInt n => rfl
    | vBool b => rfl

/-! ## Lemmas about getCell and setCell -/

theorem getCell_nil (c : String) : getCell [] c = none := rfl

theorem getCell_map_set_self (r : Row) (c : String) (v : Cell)
    (h : r.any (fun p => p.1 == c) = true) :
    getCell (r.map (fun p => if p.1 == c then (c, v) else p)) c = v := by
  induction r with
  | nil => simp at h
  | cons p ps ih =>
    by_cases hp : p.1 == c
    · simp [getCell, List.find?, hp]
    · have hp' : (p.1 == c) = false := by simpa using hp
      simp only [List.any_cons, hp', Bool.false_or] at h
      simpa [getCell, List.find?, hp'] using ih h

theorem getCell_append_single_self (r : Row) (c : String) (v : Cell)
    (h : r.any (fun p => p.1 == c) = false) :
    getCell (r ++ [(c, v)]) c = v := by
  have hnone : r.find? (fun p => p.1 == c) = none := by
    rw [List.find?_eq_none]
    exact fun x hx => List.any_eq_false.mp h x hx
  simp [getCell, List.find?_append, hnone, List.find?]

theorem getCell_setCell_self (r : Row) (c : String) (v : Cell) :
    getCell (setCell r c v) c = v := by
  unfold setCell
  by_cases h : r.any (fun p => p.1 == c) = true
  · rw [if_pos h]
    exact getCell_map_set_self r c v h
  · rw [if_neg h]
    exact getCell_append_single_self r c v (Bool.not_eq_true _ ▸ h)

theorem getCell_map_set_ne (r : Row) (c c' : String) (v : Cell) (h : c' ≠ c) :
    getCell (r.map (fun p => if p.1 == c then (c, v) else p)) c' = getCell r c' := by
  induction r with
  | nil => rfl
  | cons p ps ih =>
    by_cases hp : p.1 == c
    · have hpc : p.1 = c := by simpa using hp
      have hne : (c == c') = false := by simpa using (fun hh => h hh.symm)
      have hne2 : (p.1 == c') = false := by
        rw [hpc]; exact hne
      simp [getCell, List.find?, hp, hne, hne2] at ih ⊢
      exact ih
    · have hp' : (p.1 == c) = false := by simpa using hp
      by_cases hq : p.1 == c'
      · simp [getCell, List.find?, hp', hq]
      · have hq' : (p.1 == c') = false := by simpa using hq
        simpa [getCell, List.find?, hp', hq'] using ih

theorem getCell_setCell_ne (r : Row) (c c' : String) (v : Cell) (h : c' ≠ c) :
    getCell (setCell r c v) c' = getCell r c' := by
  unfold setCell
  by_cases hb : r.any (fun p => p.1 == c) = true
  · rw [if_pos hb]
    exact getCell_map_set_ne r c c' v h
  · rw [if_neg hb]
    have hne : ((c, v).1 == c') = false := by simpa using (fun hh => h hh.symm)
    unfold getCell
    rw [List.find?_append]
    cases hfind : r.find? (fun p => p.1 == c') <;> simp [hfind, List.find?, hne]

theorem any_key_map_set (r : Row) (c c' : String) (v : Cell) :
    (r.map (fun p => if p.1 == c then (c, v) else p)).any (fun p => p.1 == c') =
      r.any (fun p => p.1 == c') := by
  induction r with
  | nil => rfl
  | cons p ps ih =>
    simp only [List.map_cons, List.any_cons, ih]
    by_cases hp : (p.1 == c) = true
    · have hpc : p.1 = c := by simpa using hp
      rw [if_pos hp]
      simp [hpc]
    · rw [if_neg hp]

theorem any_key_setCell_self (r : Row) (c : String) (v : Cell) :
    (setCell r c v).any (fun p => p.1 == c) = true := by
  unfold setCell
  by_cases hb : r.any (fun p => p.1 == c) = true
  · rw [if_pos hb, any_key_map_set]
    exact hb
  · rw [if_neg hb]
    simp

theorem setCell_setCell_self (r : Row) (c : String) (v w : Cell) :
    setCell (setCell r c v) c w = setCell r c w := by
  unfold setCell
  by_cases hb : r.any (fun p => p.1 == c) = true
  · rw [if_pos hb, if_pos (by rw [any_key_map_set]; exact hb), if_pos hb,
      List.map_map]
    refine List.map_congr_left fun p _ => ?_
    by_cases hp : (p.1 == c) = true
    · have hpc : p.1 = c := by simpa using hp
      simp [hpc]
    · have hpc : ¬(p.1 = c) := by simpa using hp
      simp [hpc]
  · have hb' : r.any (fun p => p.1 == c) = false := Bool.not_eq_true _ ▸ hb
    rw [if_neg hb, if_pos (by simp [List.any_append, hb']), if_neg hb,
      List.map_append]
    have hmap : r.map (fun p => if p.1 == c then (c, w) else p) = r := by
      conv_rhs => rw [← List.map_id r]
      refine List.map_congr_left fun p hp => ?_
      have hk : ¬(p.1 = c) := by
        simpa using List.any_eq_false.mp hb' p hp
      simp [hk]
    rw [hmap]
    simp

theorem getCell_cons (p : String × Cell) (ps : Row) (s : String) :
    getCell (p :: ps) s = if (p.1 == s) = true then p.2 else getCell ps s := by
  by_cases h : (p.1 == s) = true
  · simp [getCell, List.find?_cons_of_pos _ h, h]
  · simp [getCell, List.find?_cons_of_neg _ h, h]

theorem setCell_comm (r : Row) (c1 c2 : String) (v1 v2 : Cell) (hne : c1 ≠ c2)
    (hc2 : r.any (fun p => p.1 == c2) = true) :
    setCell (setCell r c1 v1) c2 v2 = setCell (setCell r c2 v2) c1 v1 := by
  by_cases hc1 : r.any (fun p => p.1 == c1) = true
  · unfold setCell
    rw [if_pos hc1, if_pos hc2,
      if_pos (by rw [any_key_map_set]; exact hc2),
      if_pos (by rw [any_key_map_set]; exact hc1),
      List.map_map, List.map_map]
    have hne' : c2 ≠ c1 := fun hh => hne hh.symm
    refine List.map_congr_left fun p _ => ?_
    by_cases h1 : (p.1 == c1) = true
    · have h1' : p.1 = c1 := by simpa using h1
      have h2' : ¬(p.1 = c2) := by rw [h1']; exact hne
      simp [h1', h2', hne, hne']
    · have h1' : ¬(p.1 = c1) := by simpa using h1
      by_cases h2 : (p.1 == c2) = true
      · have h2' : p.1 = c2 := by simpa using h2
        simp [h1', h2', hne, hne']
      · have h2' : ¬(p.1 = c2) := by simpa using h2
        simp [h1', h2']
  · have hc1' : r.any (fun p => p.1 == c1) = false := Bool.not_eq_true _ ▸ hc1
    unfold setCell
    rw [if_neg hc1, if_pos hc2,
      if_pos (by simp [List.any_append, hc2]),
      if_neg (by rw [any_key_map_set]; exact hc1),
      List.map_append]
    congr 1
    simp [hne]

theorem getCell_filter_excluded (x : Row) (q : String → Bool) (s : String)
    (h : q s = false) : getCell (x.filter (fun p => q p.1)) s = none := by
  induction x with
  | nil => rfl
  | cons p ps ih =>
    rw [List.filter_cons]
    by_cases hq : q p.1 = true
    · rw [if_pos (by simpa using hq), getCell_cons]
      have hs : (p.1 == s) = false := by
        refine beq_eq_false_iff_ne.mpr fun hss => ?_
        rw [hss] at hq
        rw [hq] at h
        cases h
      rw [hs, if_neg (show ¬(false = true) by simp)]
      exact ih
    · rw [if_neg (by simpa using hq)]
      exact ih

/-! ## Idempotence of the individual cleaning passes -/

theorem rowSet_idem (k : String) (g : Cell → Cell) (hg : ∀ c, g (g c) = g c) (r : Row) :
    setCell (setCell r k (g (getCell r k))) k
      (g (getCell (setCell r k (g (getCell r k))) k)) =
    setCell r k (g (getCell r k)) := by
  rw [getCell_setCell_self, hg, setCell_setCell_self]

theorem rowSet3_idem (k k1 k2 : String) (g : Cell → Cell → Cell → Cell)
    (h1 : k1 ≠ k) (h2 : k2 ≠ k)
    (hg : ∀ a b c, g (g a b c) b c = g a b c) (r : Row) :
    setCell (setCell r k (g (getCell r k) (getCell r k1) (getCell r k2))) k
      (g (getCell (setCell r k (g (getCell r k) (getCell r k1) (getCell r k2))) k)
        (getCell (setCell r k (g (getCell r k) (getCell r k1) (getCell r k2))) k1)
        (getCell (setCell r k (g (getCell r k) (getCell r k1) (getCell r k2))) k2)) =
    setCell r k (g (getCell r k) (getCell r k1) (getCell r k2)) := by
  rw [getCell_setCell_self, getCell_setCell_ne _ _ _ _ h1, getCell_setCell_ne _ _ _ _ h2,
    hg, setCell_setCell_self]

theorem inhibitorSteps_fix (d : Cell) (hd : cellLower d = d) :
    cellLower (inhibitorSteps d) = inhibitorSteps d ∧
      inhibitorSteps (inhibitorSteps d) = inhibitorSteps d := by
  by_cases h1 : cellIsin d ["no treatment", "none", "no erythromycin"] = true
  · have e : inhibitorSteps d = some (vStr "untreated".toList) := by
      unfold inhibitorSteps inhUntreatedStep
      rw [if_pos h1]
      rfl
    rw [e]
    exact ⟨rfl, rfl⟩
  · have e1 : inhUntreatedStep d = d := by unfold inhUntreatedStep; rw [if_neg h1]
    by_cases h2 : strEndswith d "thapsigargin" = true
    · have e : inhibitorSteps d = some (vStr "thapsigargin".toList) := by
        unfold inhibitorSteps inhThapsigarginStep
        rw [e1, if_pos h2]
        rfl
      rw [e]
      exact ⟨rfl, rfl⟩
    · have e2 : inhThapsigarginStep d = d := by unfold inhThapsigarginStep; rw [if_neg h2]
      by_cases h3 : (cellIsin d accepted_inhibitors || strEndswith d "in") = true
      · have e3 : inhValidStep d = d := by
          unfold inhValidStep
          rw [h3]
          rfl
        by_cases h4 : strEndswith d "min" = true
        · have e : inhibitorSteps d = none := by
            unfold inhibitorSteps inhTimeStep
            rw [e1, e2, e3, if_pos h4]
          rw [e]
          exact ⟨rfl, rfl⟩
        · have e : inhibitorSteps d = d := by
            unfold inhibitorSteps inhTimeStep
            rw [e1, e2, e3, if_neg h4]
          rw [e]
          exact ⟨hd, e⟩
      · have h3' : (cellIsin d accepted_inhibitors || strEndswith d "in") = false :=
          Bool.not_eq_true _ ▸ h3
        have e : inhibitorSteps d = none := by
          unfold inhibitorSteps inhValidStep
          rw [e1, e2, h3']
          rfl
        rw [e]
        exact ⟨rfl, rfl⟩

theorem inhibitorTransform_idem (c : Cell) :
    inhibitorTransform (inhibitorTransform c) = inhibitorTransform c := by
  unfold inhibitorTransform
  obtain ⟨hA, hB⟩ := inhibitorSteps_fix (cellLower c) (cellLower_cellLower c)
  rw [hA, hB]

theorem cellLineTransform_none (sci tis : Cell) : cellLineTransform none sci tis = none := rfl

theorem cellLineTransform_idem (c sci tis : Cell) :
    cellLineTransform (cellLineTransform c sci tis) sci tis = cellLineTransform c sci tis := by
  by_cases hb : cellIsinLower (cellLower c) non_cell_lines = true
  · have e : cellLineTransform c sci tis = none := by
      unfold cellLineTransform cellLineBlockStep
      rw [if_pos hb]
      rfl
    rw [e]
    exact cellLineTransform_none sci tis
  · have eb : cellLineBlockStep c = c := by unfold cellLineBlockStep; rw [if_neg hb]
    by_cases m5 : strContainsCI c "mouse lymphoid Ba/F3 cells" = true
    · have e : cellLineTransform c sci tis = some (vStr "Ba/F3".toList) := by
        simp only [cellLineTransform, cellTypeStep]
        rw [eb, if_pos m5]
        rfl
      rw [e]
      rfl
    · by_cases m4 : strContainsCI c "myoblast" = true
      · have e : cellLineTransform c sci tis = some (vStr "Myoblast".toList) := by
          simp only [cellLineTransform, cellTypeStep]
          rw [eb, if_neg m5, if_pos m4]
          rfl
        rw [e]
        rfl
      · by_cases m3 : strContainsCI c "neuroblast" = true
        · have e : cellLineTransform c sci tis = some (vStr "Neuroblast".toList) := by
            simp only [cellLineTransform, cellTypeStep]
            rw [eb, if_neg m5, if_neg m4, if_pos m3]
            rfl
          rw [e]
          rfl
        · by_cases m2 : strContainsCI c "fibroblast" = true
          · have e : cellLineTransform c sci tis = some (vStr "Fibroblast".toList) := by
              simp only [cellLineTransform, cellTypeStep]
              rw [eb, if_neg m5, if_neg m4, if_neg m3, if_pos m2]
              rfl
            rw [e]
            rfl
          · by_cases m1 : strContainsCI c "lymphoblastoid" = true
            · have e : cellLineTransform c sci tis = some (vStr "lymphoblastoid".toList) := by
                simp only [cellLineTransform, cellTypeStep]
                rw [eb, if_neg m5, if_neg m4, if_neg m3, if_neg m2, if_pos m1]
                rfl
              rw [e]
              rfl
            · have et : cellTypeStep c = c := by
                simp only [cellTypeStep]
                rw [if_neg m5, if_neg m4, if_neg m3, if_neg m2, if_neg m1]
              by_cases hm : (cellEq c "S2" && !(cellEq sci "Drosophila melanogaster") ||
                  cellEq c "TSC2" ||
                  cellEq c "H1" && cellEq sci "Escherichia coli" ||
                  cellEq c "PC3" && cellEq sci "Neurospora crassa" ||
                  cellEq c "H1" && cellEq tis "embryo" && !(cellEq sci "Homo sapiens") ||
                  strEndswith c "-cell" && cellEq tis "embryo" ||
                  strEndswith c "derived tumor" && cellEq tis "Glioblastoma") = true
              · have e : cellLineTransform c sci tis = none := by
                  simp only [cellLineTransform, misidentifiedStep]
                  rw [eb, et, if_pos hm]
                rw [e]
                exact cellLineTransform_none sci tis
              · have e : cellLineTransform c sci tis = c := by
                  simp only [cellLineTransform, misidentifiedStep]
                  rw [eb, et, if_neg hm]
                rw [e]
                exact e

theorem libraryTypeTransform_idem (c : Cell) :
    libraryTypeTransform (libraryTypeTransform c) = libraryTypeTransform c := by
  by_cases h7 : strStartswith c "Ribotag" = true
  · have e : libraryTypeTransform c = some (vStr "RiboTag".toList) := by
      simp only [libraryTypeTransform]
      rw [if_pos h7]
    rw [e]
    rfl
  · by_cases h6 : strStartswith c "large ribosomal subunit" = true
    · have e : libraryTypeTransform c = some (vStr "LSU".toList) := by
        simp only [libraryTypeTransform]
        rw [if_neg h7, if_pos h6]
      rw [e]
      rfl
    · by_cases h5 : strStartswith c "80S" = true
      · have e : libraryTypeTransform c = some (vStr "LSU".toList) := by
          simp only [libraryTypeTransform]
          rw [if_neg h7, if_neg h6, if_pos h5]
        rw [e]
        rfl
      · by_cases h4 : strStartswith c "small ribosomal subunit" = true
        · have e : libraryTypeTransform c = some (vStr "SSU".toList) := by
            simp only [libraryTypeTransform]
            rw [if_neg h7, if_neg h6, if_neg h5, if_pos h4]
          rw [e]
          rfl
        · by_cases h3 : strStartswith c "40S" = true
          · have e : libraryTypeTransform c = some (vStr "SSU".toList) := by
              simp only [libraryTypeTransform]
              rw [if_neg h7, if_neg h6, if_neg h5, if_neg h4, if_pos h3]
            rw [e]
            rfl
          · by_cases h2 : strContainsCI c "ibosome" = true
            · have e : libraryTypeTransform c = some (vStr "RFP".toList) := by
                simp only [libraryTypeTransform]
                rw [if_neg h7, if_neg h6, if_neg h5, if_neg h4, if_neg h3, if_pos h2]
              rw [e]
              rfl
            · by_cases h1 : strStartswith c "Ribosome" = true
              · have e : libraryTypeTransform c = some (vStr "RFP".toList) := by
                  simp only [libraryTypeTransform]
                  rw [if_neg h7, if_neg h6, if_neg h5, if_neg h4, if_neg h3, if_neg h2,
                    if_pos h1]
                rw [e]
                rfl
              · have e : libraryTypeTransform c = c := by
                  simp only [libraryTypeTransform]
                  rw [if_neg h7, if_neg h6, if_neg h5, if_neg h4, if_neg h3, if_neg h2,
                    if_neg h1]
                rw [e]
                exact e

theorem foldl_fix {α : Type} (f : Cell → α → Cell) (l : List α) (c : Cell)
    (h : ∀ x ∈ l, f c x = c) : l.foldl f c = c := by
  induction l with
  | nil => rfl
  | cons x xs ih =>
    rw [List.foldl_cons, h x (List.mem_cons_self _ _)]
    exact ih fun y hy => h y (List.mem_cons_of_mem _ hy)

theorem foldl_organismStep_mem (l : List String) (c : Cell) :
    l.foldl organismStep c = c ∨
      ∃ org, org ∈ l ∧ l.foldl organismStep c = some (vStr org.toList) := by
  induction l generalizing c with
  | nil => exact Or.inl rfl
  | cons org rest ih =>
    rw [List.foldl_cons]
    by_cases hs : strStartswith c org = true
    · have hstep : organismStep c org = some (vStr org.toList) := by
        unfold organismStep; rw [if_pos hs]
      rw [hstep]
      rcases ih (some (vStr org.toList)) with h | ⟨o, ho, he⟩
      · exact Or.inr ⟨org, List.mem_cons_self _ _, h⟩
      · exact Or.inr ⟨o, List.mem_cons_of_mem _ ho, he⟩
    · have hstep : organismStep c org = c := by
        unfold organismStep; rw [if_neg hs]
      rw [hstep]
      rcases ih c with h | ⟨o, ho, he⟩
      · exact Or.inl h
      · exact Or.inr ⟨o, List.mem_cons_of_mem _ ho, he⟩

theorem organism_fixed : ∀ O ∈ organism_list,
    (∀ org ∈ organism_list,
      organismStep (some (vStr O.toList)) org = some (vStr O.toList)) ∧
    strStartswith (some (vStr O.toList))
      "Severe acute respiratory syndrome coronavirus 2" = false := by decide

theorem scientificNameTransform_idem (c : Cell) :
    scientificNameTransform (scientificNameTransform c) = scientificNameTransform c := by
  rcases foldl_organismStep_mem organism_list c with h | ⟨o, ho, he⟩
  · by_cases hs : strStartswith c "Severe acute respiratory syndrome coronavirus 2" = true
    · have e : scientificNameTransform c = some (vStr "SARS-CoV2".toList) := by
        unfold scientificNameTransform
        rw [h, if_pos hs]
      rw [e]
      decide
    · have e : scientificNameTransform c = c := by
        unfold scientificNameTransform
        rw [h, if_neg hs]
      rw [e]
      exact e
  · have hfix := (organism_fixed o ho).1
    have hsars := (organism_fixed o ho).2
    have e : scientificNameTransform c = some (vStr o.toList) := by
      unfold scientificNameTransform
      rw [he, if_neg (by rw [Bool.not_eq_true]; exact hsars)]
    rw [e]
    unfold scientificNameTransform
    rw [foldl_fix _ _ _ hfix, if_neg (by rw [Bool.not_eq_true]; exact hsars)]

theorem pubmedFix_idem (c : Cell) : pubmedFix (pubmedFix c) = pubmedFix c := by
  unfold pubmedFix
  by_cases h : (c == some (vInt 1)) = true
  · rw [if_pos h]
    rfl
  · rw [if_neg h, if_neg h]

theorem authorFix_idem (c : Cell) : authorFix (authorFix c) = authorFix c := by
  unfold authorFix
  by_cases h : (c == some (vStr "Makar".toList)) = true
  · rw [if_pos h]
    rfl
  · rw [if_neg h, if_neg h]

theorem clean_cell_lines_row_idem (r : Row) :
    clean_cell_lines_row (clean_cell_lines_row r) = clean_cell_lines_row r :=
  rowSet3_idem "CELL_LINE" "ScientificName" "TISSUE" cellLineTransform
    (by decide) (by decide) cellLineTransform_idem r

theorem clean_inhibitors_row_idem (r : Row) :
    clean_inhibitors_row (clean_inhibitors_row r) = clean_inhibitors_row r :=
  rowSet_idem "INHIBITOR" inhibitorTransform inhibitorTransform_idem r

theorem clean_library_types_row_idem (r : Row) :
    clean_library_types_row (clean_library_types_row r) = clean_library_types_row r :=
  rowSet_idem "LIBRARYTYPE" libraryTypeTransform libraryTypeTransform_idem r

theorem clean_scientific_names_row_idem (r : Row) :
    clean_scientific_names_row (clean_scientific_names_row r) =
      clean_scientific_names_row r :=
  rowSet_idem "ScientificName" scientificNameTransform scientificNameTransform_idem r

theorem drop_unwanted_columns_row_idem (r : Row) :
    drop_unwanted_columns_row (drop_unwanted_columns_row r) =
      drop_unwanted_columns_row r := by
  unfold drop_unwanted_columns_row
  rw [List.filter_filter]
  simp [Bool.and_self]

theorem foldl_updatePairStep_of_none (l : List (String × String)) (r : Row)
    (h : ∀ pr ∈ l, getCell r pr.2 = none) : l.foldl updatePairStep r = r := by
  induction l with
  | nil => rfl
  | cons pr rest ih =>
    rw [List.foldl_cons]
    have h0 : updatePairStep r pr = r := by
      unfold updatePairStep
      rw [h pr (List.mem_cons_self _ _)]
    rw [h0]
    exact ih fun q hq => h q (List.mem_cons_of_mem _ hq)

theorem update_standardized_columns_row_idem (r : Row) :
    update_standardized_columns_row (update_standardized_columns_row r) =
      update_standardized_columns_row r := by
  unfold update_standardized_columns_row
  have hfold :
      column_pairs.foldl updatePairStep
        ((column_pairs.foldl updatePairStep r).filter
          (fun p => !(column_pairs.map Prod.snd).contains p.1)) =
      (column_pairs.foldl updatePairStep r).filter
        (fun p => !(column_pairs.map Prod.snd).contains p.1) := by
    refine foldl_updatePairStep_of_none _ _ fun pr hpr => ?_
    refine getCell_filter_excluded _
      (fun k => !(column_pairs.map Prod.snd).contains k) _ ?_
    have hmem : pr.2 ∈ column_pairs.map Prod.snd := List.mem_map_of_mem Prod.snd hpr
    have hc : (column_pairs.map Prod.snd).contains pr.2 = true :=
      List.elem_eq_true_of_mem hmem
    show (!(column_pairs.map Prod.snd).contains pr.2) = false
    rw [hc]
    rfl
  rw [hfold, List.filter_filter]
  simp [Bool.and_self]

theorem fix_makar_entries_row_eq (r : Row) :
    fix_makar_entries_row r =
      setCell (setCell r "Study_Pubmed_id" (pubmedFix (getCell r "Study_Pubmed_id")))
        "AUTHOR"
        (authorFix (getCell
          (setCell r "Study_Pubmed_id" (pubmedFix (getCell r "Study_Pubmed_id")))
          "AUTHOR")) := rfl

theorem fix_makar_entries_row_idem (r : Row) :
    fix_makar_entries_row (fix_makar_entries_row r) = fix_makar_entries_row r := by
  have hPA : ("AUTHOR" : String) ≠ "Study_Pubmed_id" := by decide
  have hAP : ("Study_Pubmed_id" : String) ≠ "AUTHOR" := by decide
  rw [fix_makar_entries_row_eq r, fix_makar_entries_row_eq]
  set vP := getCell r "Study_Pubmed_id" with hvP
  set r1 := setCell r "Study_Pubmed_id" (pubmedFix vP) with hr1
  set w := authorFix (getCell r1 "AUTHOR") with hw
  set R := setCell r1 "AUTHOR" w with hR
  have hgRP : getCell R "Study_Pubmed_id" = pubmedFix vP := by
    rw [hR, getCell_setCell_ne _ _ _ _ hAP, hr1, getCell_setCell_self]
  have hanyP : r1.any (fun p => p.1 == "Study_Pubmed_id") = true := by
    rw [hr1]
    exact any_key_setCell_self _ _ _
  have hinner : setCell R "Study_Pubmed_id" (pubmedFix (getCell R "Study_Pubmed_id")) = R := by
    rw [hgRP, pubmedFix_idem, hR,
      setCell_comm r1 "AUTHOR" "Study_Pubmed_id" w (pubmedFix vP) hPA hanyP, hr1,
      setCell_setCell_self]
  rw [hinner]
  have hgRA : getCell R "AUTHOR" = w := by
    rw [hR, getCell_setCell_self]
  rw [hgRA, hw, authorFix_idem, ← hw, hR, setCell_setCell_self]

/-! ## Table-level idempotence of each pass -/

theorem map_idem {f : Row → Row} (hf : ∀ r, f (f r) = f r) (df : Table) :
    (df.map f).map f = df.map f := by
  induction df with
  | nil => rfl
  | cons r rest ih => simp only [List.map_cons, hf r, ih]

theorem update_standardized_columns_idem (df : Table) :
    update_standardized_columns (update_standardized_columns df) =
      update_standardized_columns df :=
  map_idem update_standardized_columns_row_idem df

theorem clean_cell_lines_idem (df : Table) :
    clean_cell_lines (clean_cell_lines df) = clean_cell_lines df :=
  map_idem clean_cell_lines_row_idem df

theorem clean_inhibitors_idem (df : Table) :
    clean_inhibitors (clean_inhibitors df) = clean_inhibitors df :=
  map_idem clean_inhibitors_row_idem df

theorem clean_library_types_idem (df : Table) :
    clean_library_types (clean_library_types df) = clean_library_types df :=
  map_idem clean_library_types_row_idem df

theorem clean_scientific_names_idem (df : Table) :
    clean_scientific_names (clean_scientific_names df) = clean_scientific_names df :=
  map_idem clean_scientific_names_row_idem df

theorem drop_unwanted_columns_idem (df : Table) :
    drop_unwanted_columns (drop_unwanted_columns df) = drop_unwanted_columns df :=
  map_idem drop_unwanted_columns_row_idem df

theorem fix_makar_entries_idem (df : Table) :
    fix_makar_entries (fix_makar_entries df) = fix_makar_entries df :=
  map_idem fix_makar_entries_row_idem df

/-! ## Claim theorems for prepare_metadata.py -/

/-- Claim C1, counterexample: the full field-cleaning pipeline is not
idempotent.  On a single-row table whose CELL_LINE is "H1" and whose
ScientificName is "Escherichia coli K-12", the first application keeps
CELL_LINE (the ScientificName does not literally equal "Escherichia coli")
while canonicalizing the ScientificName; the second application then fires
the H1/Escherichia-coli misidentification rule and clears CELL_LINE. -/
theorem C1_pipeline_counterexample :
    cleaningPipeline (cleaningPipeline
      [[("Run", some (vStr "R1".toList)),
        ("CELL_LINE", some (vStr "H1".toList)),
        ("ScientificName", some (vStr "Escherichia coli K-12".toList)),
        ("TISSUE", none), ("INHIBITOR", none), ("LIBRARYTYPE", none),
        ("AUTHOR", none), ("Study_Pubmed_id", none)]]) ≠
    cleaningPipeline
      [[("Run", some (vStr "R1".toList)),
        ("CELL_LINE", some (vStr "H1".toList)),
        ("ScientificName", some (vStr "Escherichia coli K-12".toList)),
        ("TISSUE", none), ("INHIBITOR", none), ("LIBRARYTYPE", none),
        ("AUTHOR", none), ("Study_Pubmed_id", none)]] := by decide

/-- Claim C1 (amended): each individual cleaning pass is idempotent — rerunning
standardized-column consolidation, cell-line cleaning, inhibitor cleaning,
library-type cleaning, scientific-name cleaning, column pruning, or the Makar
fix on its own output produces no further change, for every input table.  (The
composed pipeline is not idempotent; see the counterexample.) -/
theorem C1_each_pass_idempotent :
    (∀ df : Table, update_standardized_columns (update_standardized_columns df) =
      update_standardized_columns df) ∧
    (∀ df : Table, clean_cell_lines (clean_cell_lines df) = clean_cell_lines df) ∧
    (∀ df : Table, clean_inhibitors (clean_inhibitors df) = clean_inhibitors df) ∧
    (∀ df : Table, clean_library_types (clean_library_types df) = clean_library_types df) ∧
    (∀ df : Table, clean_scientific_names (clean_scientific_names df) =
      clean_scientific_names df) ∧
    (∀ df : Table, drop_unwanted_columns (drop_unwanted_columns df) =
      drop_unwanted_columns df) ∧
    (∀ df : Table, fix_makar_entries (fix_makar_entries df) = fix_makar_entries df) :=
  ⟨update_standardized_columns_idem, clean_cell_lines_idem, clean_inhibitors_idem,
    clean_library_types_idem, clean_scientific_names_idem, drop_unwanted_columns_idem,
    fix_makar_entries_idem⟩

/-- Claim C4, counterexample: in the external merge override, the CONDITION
field is not protected by the missing-reference frame rule.  A target row with
CONDITION "Control" merged with a reference row whose CONDITION is missing
gets CONDITION "Test" (the NaN reference passes the `!= "NONE"` guard and the
derived value is "Test"), overwriting the present value. -/
theorem C4_counterexample :
    getCell (update_from_ribocrypt_row
      [("Run", some (vStr "R1".toList)), ("CELL_LINE", none), ("INHIBITOR", none),
       ("AUTHOR", none), ("CONDITION", some (vStr "Control".toList))]
      [("Run", some (vStr "R1".toList)), ("CELL_LINE", none), ("INHIBITOR", none),
       ("AUTHOR", none), ("CONDITION", none)]) "CONDITION" =
      some (vStr "Test".toList) ∧
    some (vStr "Test".toList) ≠ some (vStr "Control".toList) := by decide

/-- Claim C4 (amended): for the direct-copy fields CELL_LINE, INHIBITOR and
AUTHOR, a present target value is never replaced by a missing reference value,
and a replacement happens only when the new value is non-missing, differs from
the existing value, and is not a sentinel "NONE"/"nan" marker.  For CONDITION
the replacement value is the derived two-valued label ("Control" if the
reference value is "WT", else "Test", hence never missing), applied whenever
the reference value differs from "NONE" under Python `!=` — so a missing
reference value does not protect an existing CONDITION. -/
theorem C4_update_rules :
    (∀ o n : Cell, o.isSome → n = none → update_direct o n = o) ∧
    (∀ o n : Cell, update_direct o n ≠ o →
      n.isSome = true ∧ n ≠ o ∧ isSentinel n = false) ∧
    (∀ o y : Cell, update_condition o y ≠ o →
      pdNe y (some (vStr "NONE".toList)) = true ∧
      update_condition o y = derivedCondition y) ∧
    (∀ y : Cell, (derivedCondition y).isSome = true) := by
  refine ⟨?_, ?_, ?_, ?_⟩
  · intro o n ho hn
    subst hn
    cases o with
    | none => simp at ho
    | some v => rfl
  · intro o n hne
    unfold update_direct at hne
    by_cases hcond : (!isSentinel n && pdNe o n && !(o.isSome && n.isNone)) = true
    · rw [if_pos hcond] at hne
      rw [Bool.and_eq_true, Bool.and_eq_true] at hcond
      obtain ⟨⟨hs, _⟩, hnn⟩ := hcond
      refine ⟨?_, hne, by simpa using hs⟩
      cases n with
      | some _ => rfl
      | none =>
        cases o with
        | none => exact absurd rfl hne
        | some _ => simp at hnn
    · rw [if_neg hcond] at hne
      exact absurd rfl hne
  · intro o y hne
    unfold update_condition at hne ⊢
    by_cases hg : pdNe y (some (vStr "NONE".toList)) = true
    · rw [if_pos hg] at hne ⊢
      refine ⟨hg, ?_⟩
      by_cases hin : (pdNe o (derivedCondition y) &&
          !(o.isSome && (derivedCondition y).isNone)) = true
      · rw [if_pos hin]
      · rw [if_neg hin] at hne
        exact absurd rfl hne
    · rw [if_neg hg] at hne
      exact absurd rfl hne
  · intro y
    rfl

/-- Claim C4, witness: the frame rule at a concrete input — a present CELL_LINE
value "HeLa" is kept when the reference value is missing. -/
theorem C4_witness :
    update_direct (some (vStr "HeLa".toList)) none = some (vStr "HeLa".toList) :=
  C4_update_rules.1 (some (vStr "HeLa".toList)) none (by decide) rfl

/-- Claim C7: the inhibitor-cleaning pass maps any INHIBITOR value that equals
"No Treatment" after lowercasing to "untreated", and clears any INHIBITOR
value ending in "min" (such as "5min") to missing. -/
theorem C7_inhibitor_examples :
    (∀ s : Str, strLower s = "no treatment".toList →
      inhibitorTransform (some (vStr s)) = some (vStr "untreated".toList)) ∧
    (∀ s : Str, "min".toList <:+ s →
      inhibitorTransform (some (vStr s)) = none) := by
  constructor
  · intro s h
    unfold inhibitorTransform
    have hc : cellLower (some (vStr s)) = some (vStr "no treatment".toList) := by
      simp [cellLower, h]
    rw [hc]
    decide
  · intro s hsuf
    have hmin : ("min".toList : Str) <:+ strLower s := by
      have h2 := List.IsSuffix.map Char.toLower hsuf
      simpa [strLower] using h2
    unfold inhibitorTransform
    have hc : cellLower (some (vStr s)) = some (vStr (strLower s)) := rfl
    rw [hc]
    generalize hT : strLower s = t at hmin
    have h1 : cellIsin (some (vStr t)) ["no treatment", "none", "no erythromycin"] = false := by
      simp only [cellIsin, List.any_eq_false]
      intro x hx
      fin_cases hx <;>
        · simp only [beq_iff_eq]
          intro he
          rw [← he] at hmin
          exact absurd hmin (by decide)
    have h2 : strEndswith (some (vStr t)) "thapsigargin" = false := by
      simp only [strEndswith]
      refine Bool.eq_false_iff.mpr fun hth => ?_
      have hsfx : ("thapsigargin".toList : Str) <:+ t := List.isSuffixOf_iff_suffix.mp hth
      rcases List.suffix_or_suffix_of_suffix hmin hsfx with h | h
      · exact absurd h (by decide)
      · exact absurd h (by decide)
    have hval : (cellIsin (some (vStr t)) accepted_inhibitors ||
        strEndswith (some (vStr t)) "in") = true := by
      have hin : strEndswith (some (vStr t)) "in" = true := by
        simp only [strEndswith]
        exact List.isSuffixOf_iff_suffix.mpr
          (List.IsSuffix.trans (by decide) hmin)
      rw [hin, Bool.or_true]
    have h4 : strEndswith (some (vStr t)) "min" = true := by
      simp only [strEndswith]
      exact List.isSuffixOf_iff_suffix.mpr hmin
    have e1 : inhUntreatedStep (some (vStr t)) = some (vStr t) := by
      unfold inhUntreatedStep
      rw [h1]
      rfl
    have e2 : inhThapsigarginStep (some (vStr t)) = some (vStr t) := by
      unfold inhThapsigarginStep
      rw [h2]
      rfl
    have e3 : inhValidStep (some (vStr t)) = some (vStr t) := by
      unfold inhValidStep
      rw [hval]
      rfl
    have e4 : inhTimeStep (some (vStr t)) = none := by
      unfold inhTimeStep
      rw [h4]
      rfl
    unfold inhibitorSteps
    rw [e1, e2, e3, e4]

/-- Claim C7, witness: the two concrete examples — "No Treatment" becomes
"untreated" and "5min" becomes missing. -/
theorem C7_witness :
    inhibitorTransform (some (vStr "No Treatment".toList)) =
      some (vStr "untreated".toList) ∧
    inhibitorTransform (some (vStr "5min".toList)) = none :=
  ⟨C7_inhibitor_examples.1 "No Treatment".toList (by decide),
   C7_inhibitor_examples.2 "5min".toList (by decide)⟩

/-- Claim C8: the cell-line cleaning pass clears every CELL_LINE value equal to
"C57BL/6" under case-insensitive comparison to missing, whatever the row's
ScientificName and TISSUE cells are. -/
theorem C8_c57bl6_cleared (s : Str) (sci tis : Cell)
    (h : strLower s = strLower "C57BL/6".toList) :
    cellLineTransform (some (vStr s)) sci tis = none := by
  have hb : cellIsinLower (cellLower (some (vStr s))) non_cell_lines = true := by
    simp only [cellLower, cellIsinLower]
    refine List.any_eq_true.mpr ⟨"C57BL/6", by decide, ?_⟩
    rw [h]
    exact beq_self_eq_true _
  unfold cellLineTransform cellLineBlockStep
  rw [if_pos hb]
  rfl

/-- Claim C8, witness: the mixed-case value "C57bl/6" is cleared. -/
theorem C8_witness :
    cellLineTransform (some (vStr "C57bl/6".toList))
      (some (vStr "Mus musculus".toList)) none = none :=
  C8_c57bl6_cleared "C57bl/6".toList (some (vStr "Mus musculus".toList)) none (by decide)

/-! ## Claim theorems for CSV_Diff.py -/

/-- Claim C2: for every pair of column extracts keyed by Run, the comparator
flags a key-matched pair as mismatching exactly when the two cells are not
literally equal and not both missing; two missing cells are never a mismatch,
a missing cell paired with a present one always is, and two equal present
cells never are.  No normalization is applied: the filter is literal
cell equality with the matched-NaN exception. -/
theorem C2_mismatch_classification :
    (∀ t1 t2 : List (Str × Cell),
      find_mismatched_values t1 t2 =
        (mergeOnRun t1 t2).filter
          (fun x => decide (x.2.1 ≠ x.2.2 ∧ ¬(x.2.1 = none ∧ x.2.2 = none)))) ∧
    (∀ v : Val, mismatchB (some v) (some v) = false) ∧
    mismatchB none none = false ∧
    (∀ v : Val, mismatchB (some v) none = true ∧ mismatchB none (some v) = true) := by
  refine ⟨?_, ?_, rfl, ?_⟩
  · intro t1 t2
    unfold find_mismatched_values
    refine List.filter_congr fun x _ => ?_
    rcases x with ⟨r, a, b⟩
    cases a <;> cases b <;> simp [mismatchB, pdNe, decide_eq_decide]
  · intro v
    simp [mismatchB, pdNe]
  · intro v
    exact ⟨rfl, rfl⟩

theorem length_filter_add_length_filter_not {α : Type} (l : List α) (p : α → Bool) :
    (l.filter p).length + (l.filter (fun x => !p x)).length = l.length := by
  induction l with
  | nil => rfl
  | cons x xs ih =>
    rw [List.filter_cons, List.filter_cons]
    cases hx : p x <;> simp [hx, ← ih] <;> omega

theorem countP_eq_one_of_nodup_mem {α : Type} [DecidableEq α] (l : List α) (k : α)
    (hnd : l.Nodup) (hk : k ∈ l) : l.countP (fun b => decide (b = k)) = 1 := by
  induction l with
  | nil => cases hk
  | cons x xs ih =>
    rw [List.countP_cons]
    rcases List.mem_cons.mp hk with rfl | hmem
    · have hx : xs.countP (fun b => decide (b = k)) = 0 := by
        rw [List.countP_eq_zero]
        intro b hb
        have hbx : b ≠ k := fun he => (List.nodup_cons.mp hnd).1 (he ▸ hb)
        simp [hbx]
      simp [hx]
    · have hne : x ≠ k := fun he => (List.nodup_cons.mp hnd).1 (he ▸ hmem)
      rw [ih (List.nodup_cons.mp hnd).2 hmem]
      simp [hne]

theorem count_key_matches (t2 : List (Str × List Cell)) (k : Str)
    (h2 : (t2.map Prod.fst).Nodup) (hk : k ∈ t2.map Prod.fst) :
    (t2.filter (fun b => b.1 == k)).length = 1 := by
  rw [← List.countP_eq_length_filter]
  calc t2.countP (fun b => b.1 == k)
      = (t2.map Prod.fst).countP (fun b => b == k) :=
        (List.countP_map (fun b => b == k) Prod.fst t2).symm
    _ = (t2.map Prod.fst).countP (fun b => decide (b = k)) :=
        List.countP_congr fun b _ => by by_cases hbk : b = k <;> simp [hbk]
    _ = 1 := countP_eq_one_of_nodup_mem _ _ h2 hk

theorem mergeRowsOnRun_length (t1 t2 : List (Str × List Cell))
    (h2 : (t2.map Prod.fst).Nodup) (hmem : ∀ a ∈ t1, a.1 ∈ t2.map Prod.fst) :
    (mergeRowsOnRun t1 t2).length = t1.length := by
  unfold mergeRowsOnRun
  induction t1 with
  | nil => rfl
  | cons a rest ih =>
    rw [List.flatMap_cons, List.length_append, List.length_map,
      count_key_matches t2 a.1 h2 (hmem a (List.mem_cons_self _ _)),
      ih fun b hb => hmem b (List.mem_cons_of_mem _ hb)]
    rw [List.length_cons]
    omega

/-- Claim C5: when the two tables' Run keys match one-to-one, the comparator's
identical-row count plus different-row count equals the row count of the first
table: every key-matched row pair is classified as exactly one of identical or
different. -/
theorem C5_row_partition (t1 t2 : List (Str × List Cell))
    (h1 : (t1.map Prod.fst).Nodup) (h2 : (t2.map Prod.fst).Nodup)
    (hmem : ∀ a ∈ t1, a.1 ∈ t2.map Prod.fst) :
    (find_identical_rows t1 t2).identicalRuns.length +
      (find_identical_rows t1 t2).differentRuns.length =
    (find_identical_rows t1 t2).totalRows := by
  have hI : (find_identical_rows t1 t2).identicalRuns =
      ((mergeRowsOnRun t1 t2).filter (fun x => rowIdenticalB x.2.1 x.2.2)).map
        (fun x => x.1) := rfl
  have hD : (find_identical_rows t1 t2).differentRuns =
      ((mergeRowsOnRun t1 t2).filter (fun x => !rowIdenticalB x.2.1 x.2.2)).map
        (fun x => x.1) := rfl
  have hT : (find_identical_rows t1 t2).totalRows = t1.length := rfl
  rw [hI, hD, hT, List.length_map, List.length_map,
    length_filter_add_length_filter_not,
    mergeRowsOnRun_length t1 t2 h2 hmem]

/-- Claim C5, witness: a two-row pair of tables with matching keys, one row
identical and one row different, partitioning 2 = 1 + 1. -/
theorem C5_witness :
    (find_identical_rows
      [("R1".toList, [some (vInt 1)]), ("R2".toList, [none])]
      [("R2".toList, [some (vInt 2)]), ("R1".toList, [some (vInt 1)])]).identicalRuns.length +
    (find_identical_rows
      [("R1".toList, [some (vInt 1)]), ("R2".toList, [none])]
      [("R2".toList, [some (vInt 2)]), ("R1".toList, [some (vInt 1)])]).differentRuns.length =
    (find_identical_rows
      [("R1".toList, [some (vInt 1)]), ("R2".toList, [none])]
      [("R2".toList, [some (vInt 2)]), ("R1".toList, [some (vInt 1)])]).totalRows :=
  C5_row_partition
    [("R1".toList, [some (vInt 1)]), ("R2".toList, [none])]
    [("R2".toList, [some (vInt 2)]), ("R1".toList, [some (vInt 1)])]
    (by decide) (by decide) (by decide)

/-! ## Claim theorems for generate_fixtures.py -/

theorem df_to_sample_fixture_pks (cols accepted : List String) (rows : Table) (M : Int) :
    (df_to_sample_fixture cols accepted (some M) rows).map Prod.fst =
      (List.range rows.length).map (fun i : Nat => M + 1 + (i : Int)) := by
  induction rows generalizing M with
  | nil => rfl
  | cons r rest ih =>
    have hnext : nextPk (some M) = M + 1 := by
      show (if M = 0 then 1 else M + 1) = M + 1
      by_cases h : M = 0
      · rw [if_pos h, h]
        rfl
      · rw [if_neg h]
    show (nextPk (some M)) ::
        (df_to_sample_fixture cols accepted (some (nextPk (some M))) rest).map Prod.fst = _
    rw [hnext, ih (M + 1), List.length_cons, List.range_succ_eq_map, List.map_cons,
      List.map_map]
    congr 1
    · simp
    · refine List.map_congr_left fun i _ => ?_
      show M + 1 + 1 + (i : Int) = M + 1 + ((i + 1 : Nat) : Int)
      push_cast
      ring

/-- Claim C3: when the store's sample table has maximum key M, the record
generator assigns primary keys M+1, M+2, ..., M+N to the N input rows in row
order — the emitted key list is exactly the range starting at M+1, hence
strictly increasing consecutive integers with no duplicates and no gaps. -/
theorem C3_consecutive_pks (M : Int) (cols accepted : List String) (rows : Table) :
    (df_to_sample_fixture cols accepted (some M) rows).map Prod.fst =
      (List.range rows.length).map (fun i : Nat => M + 1 + (i : Int)) ∧
    ((df_to_sample_fixture cols accepted (some M) rows).map Prod.fst).Pairwise (· < ·) := by
  refine ⟨df_to_sample_fixture_pks cols accepted rows M, ?_⟩
  rw [df_to_sample_fixture_pks cols accepted rows M]
  refine List.Pairwise.map _ (fun a b hab => ?_) (List.pairwise_lt_range rows.length)
  omega

theorem emitField_none_of_coercion_failure (accepted : List String) (r : Row)
    (c : String) (hc : c ∈ int_cast_columns) (hfail : pyInt (getCell r c) = none) :
    emitField accepted r c = none := by
  by_cases ha : accepted.contains c = true
  · have hcc : int_cast_columns.contains c = true := List.elem_eq_true_of_mem hc
    unfold emitField
    rw [if_neg (show ¬((!accepted.contains c) = true) by rw [ha]; decide),
      if_pos hcc, hfail]
  · have ha' : accepted.contains c = false := Bool.not_eq_true _ ▸ ha
    unfold emitField
    rw [if_pos (show (!accepted.contains c) = true by rw [ha']; rfl)]

theorem emitField_key (accepted : List String) (r : Row) (col c : String)
    (v : FieldVal) (h : emitField accepted r col = some (c, v)) : col = c := by
  unfold emitField at h
  by_cases h1 : (!accepted.contains col) = true
  · rw [if_pos h1] at h
    cases h
  · rw [if_neg h1] at h
    by_cases h2 : int_cast_columns.contains col = true
    · rw [if_pos h2] at h
      cases hpy : pyInt (getCell r col) with
      | none =>
        rw [hpy] at h
        cases h
      | some n =>
        rw [hpy] at h
        simp only [Option.some.injEq, Prod.mk.injEq] at h
        exact h.1
    · rw [if_neg h2] at h
      simp only [Option.some.injEq, Prod.mk.injEq] at h
      exact h.1

/-- Claim C6: if an integer-coerced field of a row cannot be coerced with
Python int(), that field is omitted from the emitted record — no pair with
that column name appears — and the rest of the record is exactly what the
remaining columns emit, so generation continues for all other fields. -/
theorem C6_int_coercion_skips (cols accepted : List String) (r : Row) (c : String)
    (hc : c ∈ int_cast_columns) (hfail : pyInt (getCell r c) = none) :
    (∀ v : FieldVal, (c, v) ∉ sampleFields cols accepted r) ∧
    sampleFields cols accepted r =
      sampleFields (cols.filter (fun x => !(x == c))) accepted r := by
  have hemit : emitField accepted r c = none :=
    emitField_none_of_coercion_failure accepted r c hc hfail
  constructor
  · intro v hmem
    unfold sampleFields at hmem
    rw [List.mem_filterMap] at hmem
    obtain ⟨col, _, hemitted⟩ := hmem
    have hfst : col = c := emitField_key accepted r col c v hemitted
    rw [hfst, hemit] at hemitted
    cases hemitted
  · unfold sampleFields
    induction cols with
    | nil => rfl
    | cons x xs ih =>
      rw [List.filter_cons]
      by_cases hx : (x == c) = true
      · have hxc : x = c := by simpa using hx
        rw [if_neg (show ¬((!(x == c)) = true) by rw [hx]; decide),
          List.filterMap_cons, hxc, hemit]
        exact ih
      · have hx' : (x == c) = false := Bool.not_eq_true _ ▸ hx
        rw [if_pos (show (!(x == c)) = true by rw [hx']; rfl),
          List.filterMap_cons, List.filterMap_cons]
        cases emitField accepted r x <;> simp [ih]

/-- Claim C6, witness: a row whose "spots" value is the non-numeric string
"abc" emits no "spots" field, while the "Run" field is still emitted. -/
theorem C6_witness :
    sampleFields ["spots", "Run"] ["spots", "Run"]
        [("spots", some (vStr "abc".toList)), ("Run", some (vStr "R1".toList))] =
      sampleFields (["spots", "Run"].filter (fun x => !(x == "spots")))
        ["spots", "Run"]
        [("spots", some (vStr "abc".toList)), ("Run", some (vStr "R1".toList))] ∧
    ("spots", FieldVal.fInt 0) ∉
      sampleFields ["spots", "Run"] ["spots", "Run"]
        [("spots", some (vStr "abc".toList)), ("Run", some (vStr "R1".toList))] :=
  ⟨(C6_int_coercion_skips ["spots", "Run"] ["spots", "Run"]
      [("spots", some (vStr "abc".toList)), ("Run", some (vStr "R1".toList))]
      "spots" (by decide) (by decide)).2,
   (C6_int_coercion_skips ["spots", "Run"] ["spots", "Run"]
      [("spots", some (vStr "abc".toList)), ("Run", some (vStr "R1".toList))]
      "spots" (by decide) (by decide)).1 (FieldVal.fInt 0)⟩

/-! ## Claim theorem for value_counts.py -/

/-- Claim C9: for every analyzed column, the counts in the complete ranked
listing sum to the number of input rows whose value in that column is present
— missing values are excluded by value_counts. -/
theorem C9_value_counts_sum (df : Table) (c : String) :
    ((analyze_column_counts df c).map Prod.snd).sum =
      (df.filter (fun r => (getCell r c).isSome)).length := by
  have hsorted : ((analyze_column_counts df c).map Prod.snd).sum =
      ((((columnCells df c).filterMap id).dedup.map
        (fun v => (v, ((columnCells df c).filterMap id).count v))).map Prod.snd).sum :=
    List.Perm.sum_eq (List.Perm.map Prod.snd (List.mergeSort_perm _ _))
  rw [hsorted, List.map_map]
  have hcounts : ((((columnCells df c).filterMap id).dedup).map
      (Prod.snd ∘ fun v => (v, ((columnCells df c).filterMap id).count v))).sum =
      ((columnCells df c).filterMap id).length :=
    List.sum_map_count_dedup_eq_length _
  rw [hcounts]
  unfold columnCells
  rw [List.length_filterMap_eq_countP, List.countP_map, ← List.countP_eq_length_filter]
  rfl

/-! ## Claim theorem for add_ribocrypt_booleans -/

theorem add_ribocrypt_booleans_row_eq (rc : List (Str × Option Bool)) (r : Row) :
    add_ribocrypt_booleans_row rc r =
      setCell (setCell r "ribocrypt_id"
          (some (vBool (runIn (getCell r "Run") (rc.map Prod.fst)))))
        "process_status"
        (some (vStr (if runIn (getCell r "Run") (rc.map Prod.fst) then
          ribocryptStatus rc (getCell r "Run") else "Not Yet Started").toList)) := rfl

theorem ribocrypt_status_cases (rc : List (Str × Option Bool)) (run : Cell) (b : Bool) :
    (if b then ribocryptStatus rc run else "Not Yet Started") = "Not Yet Started" ∨
    (if b then ribocryptStatus rc run else "Not Yet Started") = "Completed" ∨
    (if b then ribocryptStatus rc run else "Not Yet Started") = "Failed" := by
  cases b
  · exact Or.inl rfl
  · unfold ribocryptStatus
    by_cases h1 : runIn run ((rc.filter (fun p => p.2 == some true)).map Prod.fst) = true
    · rw [if_pos (show (true : Bool) = true from rfl), if_pos h1]
      exact Or.inr (Or.inl rfl)
    · rw [if_pos (show (true : Bool) = true from rfl), if_neg h1]
      by_cases h2 : runIn run ((rc.filter (fun p => p.2 == some false)).map Prod.fst) = true
      · rw [if_pos h2]
        exact Or.inr (Or.inr rfl)
      · rw [if_neg h2]
        exact Or.inl rfl

/-- Claim C10: after the ribocrypt flag-merging step, every row's
process_status is one of "Not Yet Started", "Completed" or "Failed"; the
ribocrypt_id flag is the boolean saying whether the row's Run appears in the
reference table; and a status other than "Not Yet Started" occurs only on rows
whose ribocrypt_id is true (a Run present in the reference table with no
recorded outcome keeps "Not Yet Started"). -/
theorem C10_ribocrypt_flags (df : Table) (rc : List (Str × Option Bool)) (r : Row)
    (hr : r ∈ add_ribocrypt_booleans df rc) :
    (getCell r "process_status" = some (vStr "Not Yet Started".toList) ∨
     getCell r "process_status" = some (vStr "Completed".toList) ∨
     getCell r "process_status" = some (vStr "Failed".toList)) ∧
    getCell r "ribocrypt_id" =
      some (vBool (runIn (getCell r "Run") (rc.map Prod.fst))) ∧
    (getCell r "process_status" ≠ some (vStr "Not Yet Started".toList) →
      getCell r "ribocrypt_id" = some (vBool true)) := by
  obtain ⟨r0, _, rfl⟩ := List.mem_map.mp hr
  rw [add_ribocrypt_booleans_row_eq]
  have hRunPS : ("Run" : String) ≠ "process_status" := by decide
  have hRunRC : ("Run" : String) ≠ "ribocrypt_id" := by decide
  have hRCPS : ("ribocrypt_id" : String) ≠ "process_status" := by decide
  have hRun : getCell (setCell (setCell r0 "ribocrypt_id"
      (some (vBool (runIn (getCell r0 "Run") (rc.map Prod.fst)))))
      "process_status"
      (some (vStr (if runIn (getCell r0 "Run") (rc.map Prod.fst) then
        ribocryptStatus rc (getCell r0 "Run") else "Not Yet Started").toList)))
      "Run" = getCell r0 "Run" := by
    rw [getCell_setCell_ne _ _ _ _ hRunPS, getCell_setCell_ne _ _ _ _ hRunRC]
  have hRC : getCell (setCell (setCell r0 "ribocrypt_id"
      (some (vBool (runIn (getCell r0 "Run") (rc.map Prod.fst)))))
      "process_status"
      (some (vStr (if runIn (getCell r0 "Run") (rc.map Prod.fst) then
        ribocryptStatus rc (getCell r0 "Run") else "Not Yet Started").toList)))
      "ribocrypt_id" =
      some (vBool (runIn (getCell r0 "Run") (rc.map Prod.fst))) := by
    rw [getCell_setCell_ne _ _ _ _ hRCPS, getCell_setCell_self]
  have hPS : getCell (setCell (setCell r0 "ribocrypt_id"
      (some (vBool (runIn (getCell r0 "Run") (rc.map Prod.fst)))))
      "process_status"
      (some (vStr (if runIn (getCell r0 "Run") (rc.map Prod.fst) then
        ribocryptStatus rc (getCell r0 "Run") else "Not Yet Started").toList)))
      "process_status" =
      some (vStr (if runIn (getCell r0 "Run") (rc.map Prod.fst) then
        ribocryptStatus rc (getCell r0 "Run") else "Not Yet Started").toList) :=
    getCell_setCell_self _ _ _
  refine ⟨?_, ?_, ?_⟩
  · rw [hPS]
    rcases ribocrypt_status_cases rc (getCell r0 "Run")
        (runIn (getCell r0 "Run") (rc.map Prod.fst)) with h | h | h
    · exact Or.inl (by rw [h])
    · exact Or.inr (Or.inl (by rw [h]))
    · exact Or.inr (Or.inr (by rw [h]))
  · rw [hRC, hRun]
  · intro hne
    rw [hRC]
    cases hin : runIn (getCell r0 "Run") (rc.map Prod.fst)
    · exfalso
      apply hne
      rw [hPS, hin]
      rfl
    · rfl

/-- Claim C10, witness: a two-row table merged against a one-row reference
table — the matched Run gets ribocrypt_id true and status "Completed", the
unmatched Run keeps false and "Not Yet Started". -/
theorem C10_witness :
    (getCell (add_ribocrypt_booleans_row [("R1".toList, some true)]
        [("Run", some (vStr "R1".toList))]) "process_status" =
          some (vStr "Not Yet Started".toList) ∨
     getCell (add_ribocrypt_booleans_row [("R1".toList, some true)]
        [("Run", some (vStr "R1".toList))]) "process_status" =
          some (vStr "Completed".toList) ∨
     getCell (add_ribocrypt_booleans_row [("R1".toList, some true)]
        [("Run", some (vStr "R1".toList))]) "process_status" =
          some (vStr "Failed".toList)) ∧
    getCell (add_ribocrypt_booleans_row [("R1".toList, some true)]
        [("Run", some (vStr "R1".toList))]) "ribocrypt_id" =
      some (vBool (runIn (getCell (add_ribocrypt_booleans_row
        [("R1".toList, some true)] [("Run", some (vStr "R1".toList))]) "Run")
        ([("R1".toList, (some true : Option Bool))].map Prod.fst))) :=
  ⟨(C10_ribocrypt_flags [[("Run", some (vStr "R1".toList))]]
      [("R1".toList, some true)] _ (List.mem_map_of_mem _ (by simp))).1,
   (C10_ribocrypt_flags [[("Run", some (vStr "R1".toList))]]
      [("R1".toList, some true)] _ (List.mem_map_of_mem _ (by simp))).2.1⟩

end Metadata
